import Mathlib

/-!
Verification of the decklink-rs buffer/callback bridge.

This file shallowly embeds the bridge code of the repository:
`src/util.rs` (the error/result adapter), `src/allocator.rs` (the
provider bridge, its spec-to-allocator cache and the buffer/allocator
trampolines), and `src/device/input/` (the input callback bridge, the
enable/teardown paths of the device-input object).

Raw native pointers are modelled as `Nat` handles, the native SDK's
return codes as `Int`, and the effect of each extern call on shared
state is made explicit by threading a state record through every
operation.  Calls into the native SDK whose outcome the bridge cannot
control (object creation, registration) take that outcome as an
explicit argument, so every path of the Rust source is a path of the
embedding.
-/

set_option autoImplicit false

namespace Decklink

/-- The error enum of `src/util.rs`: one variant per recognised HRESULT
code.  `FALSE` is the benign boolean-false outcome; the remaining
variants are the closed set of failure kinds. -/
inductive SdkError where
  | FALSE
  | UNEXPECTED
  | NOTIMPL
  | OUTOFMEMORY
  | INVALIDARG
  | NOINTERFACE
  | POINTER
  | HANDLE
  | ABORT
  | FAIL
  | ACCESSDENIED
deriving DecidableEq, Repr

/-- `SdkError::code`: the raw HRESULT discriminant of each variant,
exactly as the match in `src/util.rs` lines 26-38 lists them. -/
def SdkError.code : SdkError → Int
  | .FALSE => 1
  | .UNEXPECTED => -65535
  | .NOTIMPL => -1
  | .OUTOFMEMORY => -2
  | .INVALIDARG => -3
  | .NOINTERFACE => -4
  | .POINTER => -5
  | .HANDLE => -6
  | .ABORT => -7
  | .FAIL => -8
  | .ACCESSDENIED => -9

/-- The derived `FromPrimitive::from_i32` of `SdkError`: recognises
exactly the discriminant values and returns `none` on every other
code. -/
def SdkError.fromI32 (v : Int) : Option SdkError :=
  if v = 1 then some .FALSE
  else if v = -65535 then some .UNEXPECTED
  else if v = -1 then some .NOTIMPL
  else if v = -2 then some .OUTOFMEMORY
  else if v = -3 then some .INVALIDARG
  else if v = -4 then some .NOINTERFACE
  else if v = -5 then some .POINTER
  else if v = -6 then some .HANDLE
  else if v = -7 then some .ABORT
  else if v = -8 then some .FAIL
  else if v = -9 then some .ACCESSDENIED
  else none

/-- `SdkError::from` (named `fromCode` because `from` is a Lean
keyword): total conversion of a raw code, defaulting to `FALSE` for
every unrecognised value. -/
def SdkError.fromCode (v : Int) : SdkError :=
  (SdkError.fromI32 v).getD .FALSE

/-- `SdkError::is_ok`: success is exactly the code 0. -/
def SdkError.is_ok (v : Int) : Bool :=
  v = 0

/-- `SdkError::is_false`: the reserved benign-false code. -/
def SdkError.is_false (v : Int) : Bool :=
  v = SdkError.FALSE.code

/-- No variant of the error enum carries the success code. -/
theorem SdkError.code_ne_zero (e : SdkError) : e.code ≠ 0 := by
  cases e <;> simp [SdkError.code]

/-- C4: the error/result adapter is total and pure: a code is success
exactly when it is 0; the reserved code 1 converts to the benign-false
variant `FALSE`; each recognised negative code converts to its failure
variant (unexpected, not-implemented, out-of-memory, invalid-argument,
no-such-interface, null-pointer, invalid-handle, aborted,
generic-failure, access-denied); and every code outside the recognised
set converts to `FALSE` rather than failing.  The conversion is a pure
Lean function, so it has no side effects and never panics. -/
theorem C4_error_adapter_total :
    (∀ v : Int, SdkError.is_ok v = true ↔ v = 0) ∧
    (SdkError.fromCode 1 = .FALSE ∧ SdkError.is_false 1 = true) ∧
    (SdkError.fromCode (-65535) = .UNEXPECTED ∧
     SdkError.fromCode (-1) = .NOTIMPL ∧
     SdkError.fromCode (-2) = .OUTOFMEMORY ∧
     SdkError.fromCode (-3) = .INVALIDARG ∧
     SdkError.fromCode (-4) = .NOINTERFACE ∧
     SdkError.fromCode (-5) = .POINTER ∧
     SdkError.fromCode (-6) = .HANDLE ∧
     SdkError.fromCode (-7) = .ABORT ∧
     SdkError.fromCode (-8) = .FAIL ∧
     SdkError.fromCode (-9) = .ACCESSDENIED) ∧
    (∀ v : Int, SdkError.fromI32 v = none → SdkError.fromCode v = .FALSE) := by
  refine ⟨?_, ⟨by decide, by decide⟩, ?_, ?_⟩
  · intro v
    simp [SdkError.is_ok]
  · refine ⟨?_, ?_, ?_, ?_, ?_, ?_, ?_, ?_, ?_, ?_⟩ <;> decide
  · intro v hv
    simp [SdkError.fromCode, hv]

/-- Witness for C4 at the concrete unrecognised code -1234: the
adapter sends it to the benign-false variant. -/
theorem C4_error_adapter_total_witness :
    SdkError.fromCode (-1234) = .FALSE :=
  C4_error_adapter_total.2.2.2 (-1234) (by decide)

/-- `BufferSpec` of `src/allocator.rs`: the identifying tuple of one
buffer class, with structural equality on all fields. -/
structure BufferSpec where
  buffer_size : Nat
  width : Nat
  height : Nat
  row_bytes : Nat
  pixel_format : Nat
deriving DecidableEq, Repr

/-- The spec-to-allocator cache of `ProviderContext` (a `HashMap` in
the source), modelled as an association list; the first entry with a
matching key is the map entry. -/
def lookupCache (cache : List (BufferSpec × Nat)) (spec : BufferSpec) : Option Nat :=
  match cache with
  | [] => none
  | (k, v) :: rest => if k = spec then some v else lookupCache rest spec

/-- `HashMap::insert`: the new binding replaces any previous binding of
the same key. -/
def insertCache (cache : List (BufferSpec × Nat)) (spec : BufferSpec) (handle : Nat) :
    List (BufferSpec × Nat) :=
  (spec, handle) :: cache.filter (fun e => e.1 ≠ spec)

/-- State of one provider bridge instance together with the
reference-count bookkeeping of the native allocator objects it has
created.  `cache` is the `allocator_cache` of `ProviderContext`;
`refCount` gives the native reference count of each handle;
`released` records every `cdecklink_video_buffer_allocator_release`
call issued by the bridge; `nextHandle` is the next fresh native
handle; `hostCalls` counts, per spec, the invocations of the host
provider trait's `get_allocator`. -/
structure ProviderState where
  cache : List (BufferSpec × Nat)
  refCount : Nat → Nat
  released : List Nat
  nextHandle : Nat
  hostCalls : BufferSpec → Nat

/-- The provider state just after `create_c_allocator_provider`: empty
cache, no native allocator objects yet. -/
def initialProviderState : ProviderState where
  cache := []
  refCount := fun _ => 0
  released := []
  nextHandle := 0
  hostCalls := fun _ => 0

/-- `cdecklink_video_buffer_allocator_add_ref` on one handle. -/
def addRef (rc : Nat → Nat) (h : Nat) : Nat → Nat :=
  fun k => if k = h then rc k + 1 else rc k

/-- One host-provider invocation recorded against its spec. -/
def bumpHostCalls (f : BufferSpec → Nat) (spec : BufferSpec) : BufferSpec → Nat :=
  fun s => if s = spec then f s + 1 else f s

/-- Result of one `provider_get_allocator` trampoline call: the
HRESULT returned to the native side, the value written through the
`allocator` out-pointer (`none` when the call fails and writes
nothing), and the provider state after the call. -/
structure GetAllocatorResult where
  status : Int
  out : Option Nat
  state : ProviderState

/-- The miss path of `provider_get_allocator` (`src/allocator.rs`
lines 239-252), entered after the cache lookup found no entry: invoke
the host provider; on error return its code; on success wrap the
allocator via `create_c_allocator` (whose native creation call returns
`createResult`; a fresh native object starts with one reference), then
add-ref once for the cache's own hold and insert the handle.  When the
native creation call fails, `create_c_allocator` frees the boxed
context and the error is returned with no cache change. -/
def provider_get_allocator_miss (host : BufferSpec → Except SdkError Nat)
    (createResult : Int) (st : ProviderState) (spec : BufferSpec) : GetAllocatorResult :=
  let st1 : ProviderState := { st with hostCalls := bumpHostCalls st.hostCalls spec }
  match host spec with
  | .error e => { status := e.code, out := none, state := st1 }
  | .ok _rustAllocator =>
    if SdkError.is_ok createResult then
      let h := st1.nextHandle
      let rc1 : Nat → Nat := fun k => if k = h then 1 else st1.refCount k
      { status := 0
        out := some h
        state :=
          { st1 with
            nextHandle := h + 1
            refCount := addRef rc1 h
            cache := insertCache st1.cache spec h } }
    else
      { status := (SdkError.fromCode createResult).code, out := none, state := st1 }

/-- `provider_get_allocator` (`src/allocator.rs` lines 210-253): under
the cache lock look the spec up; on a hit add-ref the cached handle
and return it; on a miss run the miss path. -/
def provider_get_allocator (host : BufferSpec → Except SdkError Nat)
    (createResult : Int) (st : ProviderState) (spec : BufferSpec) : GetAllocatorResult :=
  match lookupCache st.cache spec with
  | some c_alloc =>
    { status := 0
      out := some c_alloc
      state := { st with refCount := addRef st.refCount c_alloc } }
  | none => provider_get_allocator_miss host createResult st spec

/-- One `cdecklink_video_buffer_allocator_release` per cache entry, as
`provider_release` iterates the cache. -/
def releaseHandles (entries : List (BufferSpec × Nat)) (rc : Nat → Nat) : Nat → Nat :=
  match entries with
  | [] => rc
  | (_, h) :: rest => releaseHandles rest (fun k => if k = h then rc k - 1 else rc k)

/-- `provider_release` (`src/allocator.rs` lines 255-264): release the
cache's hold on every cached handle. -/
def provider_release (st : ProviderState) : ProviderState :=
  { st with
    refCount := releaseHandles st.cache st.refCount
    released := st.cache.map (fun e => e.2) ++ st.released }

/-- The racing interleaving of two concurrent `provider_get_allocator`
calls for the same spec in which both threads perform the locked cache
lookup (both observing a miss at state `st`) before either reaches the
locked insert; thread 1 then completes its miss path, and thread 2
completes its miss path on the state thread 1 left.  Each atomic
section of the source (lookup under lock, host call and creation
outside the lock, insert under lock) is one step of this schedule. -/
def racingRun (host : BufferSpec → Except SdkError Nat) (cr1 cr2 : Int)
    (st : ProviderState) (spec : BufferSpec) : GetAllocatorResult × GetAllocatorResult :=
  let r1 := provider_get_allocator_miss host cr1 st spec
  let r2 := provider_get_allocator_miss host cr2 r1.state spec
  (r1, r2)

/-- Looking up the key just inserted returns the inserted handle. -/
theorem lookupCache_insertCache_self (cache : List (BufferSpec × Nat))
    (spec : BufferSpec) (h : Nat) :
    lookupCache (insertCache cache spec h) spec = some h := by
  simp [insertCache, lookupCache]

/-- A successful `provider_get_allocator` call returns a handle and
leaves that handle cached under the requested spec. -/
theorem get_allocator_success_cached (host : BufferSpec → Except SdkError Nat)
    (cr : Int) (st : ProviderState) (spec : BufferSpec)
    (hs : (provider_get_allocator host cr st spec).status = 0) :
    ∃ h, (provider_get_allocator host cr st spec).out = some h ∧
      lookupCache (provider_get_allocator host cr st spec).state.cache spec = some h := by
  cases hl : lookupCache st.cache spec with
  | some c =>
    refine ⟨c, ?_, ?_⟩ <;> simp [provider_get_allocator, hl]
  | none =>
    cases hh : host spec with
    | error e =>
      simp [provider_get_allocator, hl, provider_get_allocator_miss, hh] at hs
      exact absurd hs (SdkError.code_ne_zero e)
    | ok a =>
      cases hc : SdkError.is_ok cr with
      | false =>
        simp [provider_get_allocator, hl, provider_get_allocator_miss, hh, hc] at hs
        exact absurd hs (SdkError.code_ne_zero _)
      | true =>
        refine ⟨st.nextHandle, ?_, ?_⟩ <;>
          simp [provider_get_allocator, hl, provider_get_allocator_miss, hh, hc,
            lookupCache_insertCache_self]

/-- C1: the provider bridge calls the host provider at most once per
distinct spec.  On a cache hit the trampoline returns the cached
handle with one extra reference, touching neither the cache nor the
host-call counts; on a miss with a successful host call and native
creation it invokes the host provider exactly once for that spec,
returns a fresh handle whose reference count is 2 (the created
object's own reference plus the cache's hold), and caches it; and a
second call with an equal spec after any successful call returns the
same handle without a further host-provider invocation. -/
theorem C1_get_allocator_caches :
    ∀ (host : BufferSpec → Except SdkError Nat) (cr : Int)
      (st : ProviderState) (spec : BufferSpec),
    (∀ h, lookupCache st.cache spec = some h →
      (provider_get_allocator host cr st spec).status = 0 ∧
      (provider_get_allocator host cr st spec).out = some h ∧
      (provider_get_allocator host cr st spec).state.cache = st.cache ∧
      (provider_get_allocator host cr st spec).state.hostCalls = st.hostCalls ∧
      (provider_get_allocator host cr st spec).state.refCount h = st.refCount h + 1) ∧
    (∀ a, lookupCache st.cache spec = none → host spec = .ok a →
      SdkError.is_ok cr = true →
      (provider_get_allocator host cr st spec).status = 0 ∧
      (provider_get_allocator host cr st spec).out = some st.nextHandle ∧
      (provider_get_allocator host cr st spec).state.hostCalls spec
        = st.hostCalls spec + 1 ∧
      lookupCache (provider_get_allocator host cr st spec).state.cache spec
        = some st.nextHandle ∧
      (provider_get_allocator host cr st spec).state.refCount st.nextHandle = 2) ∧
    (∀ cr2, (provider_get_allocator host cr st spec).status = 0 →
      (provider_get_allocator host cr2
          (provider_get_allocator host cr st spec).state spec).out
        = (provider_get_allocator host cr st spec).out ∧
      (provider_get_allocator host cr2
          (provider_get_allocator host cr st spec).state spec).state.hostCalls spec
        = (provider_get_allocator host cr st spec).state.hostCalls spec) := by
  intro host cr st spec
  refine ⟨?_, ?_, ?_⟩
  · intro h hl
    refine ⟨?_, ?_, ?_, ?_, ?_⟩ <;> simp [provider_get_allocator, hl, addRef]
  · intro a hl hh hc
    refine ⟨?_, ?_, ?_, ?_, ?_⟩ <;>
      simp [provider_get_allocator, hl, provider_get_allocator_miss, hh, hc,
        bumpHostCalls, addRef, lookupCache_insertCache_self]
  · intro cr2 hs
    obtain ⟨h, ho, hcached⟩ := get_allocator_success_cached host cr st spec hs
    generalize hr : provider_get_allocator host cr st spec = r at ho hcached ⊢
    rw [ho]
    unfold provider_get_allocator
    rw [hcached]
    exact ⟨rfl, rfl⟩

/-- The concrete spec used by the witnesses. -/
def specW : BufferSpec := ⟨1024, 16, 16, 64, 0⟩

/-- A host provider that always returns the rust allocator 0. -/
def hostOkW : BufferSpec → Except SdkError Nat := fun _ => .ok 0

/-- A host provider that always fails with `FAIL`. -/
def hostErrW : BufferSpec → Except SdkError Nat := fun _ => .error .FAIL

/-- A provider state whose cache already maps `specW` to handle 7. -/
def stHitW : ProviderState :=
  { initialProviderState with cache := [(specW, 7)], refCount := fun _ => 2 }

/-- Witness for C1: on the pre-populated state a call returns the
cached handle 7 with no host call; from the empty state a first call
returns the fresh handle 0 after exactly one host call, and the
consecutive second call returns the same handle 0 again. -/
theorem C1_get_allocator_caches_witness :
    (provider_get_allocator hostOkW 0 stHitW specW).out = some 7 ∧
    (provider_get_allocator hostOkW 0 stHitW specW).state.hostCalls specW = 0 ∧
    (provider_get_allocator hostOkW 0 initialProviderState specW).out = some 0 ∧
    (provider_get_allocator hostOkW 0 initialProviderState specW).state.hostCalls specW = 1 ∧
    (provider_get_allocator hostOkW 0
        (provider_get_allocator hostOkW 0 initialProviderState specW).state specW).out
      = some 0 := by
  have h1 := (C1_get_allocator_caches hostOkW 0 stHitW specW).1 7 (by decide)
  have h2 := (C1_get_allocator_caches hostOkW 0 initialProviderState specW).2.1 0
    (by decide) rfl rfl
  have h3 := (C1_get_allocator_caches hostOkW 0 initialProviderState specW).2.2 0 h2.1
  refine ⟨h1.2.1, ?_, h2.2.1, h2.2.2.1, h3.1.trans h2.2.1⟩
  rw [h1.2.2.2.1]
  rfl

/-- C2: a host-provider failure propagates that error's status code to
the native side, writes nothing to the out-pointer, and leaves the
cache, the reference counts, and the set of released handles of the
bridge unchanged. -/
theorem C2_host_error_propagates :
    ∀ (host : BufferSpec → Except SdkError Nat) (cr : Int)
      (st : ProviderState) (spec : BufferSpec) (e : SdkError),
    lookupCache st.cache spec = none → host spec = .error e →
    (provider_get_allocator host cr st spec).status = e.code ∧
    (provider_get_allocator host cr st spec).out = none ∧
    (provider_get_allocator host cr st spec).state.cache = st.cache ∧
    (provider_get_allocator host cr st spec).state.refCount = st.refCount ∧
    (provider_get_allocator host cr st spec).state.released = st.released := by
  intro host cr st spec e hl hh
  simp [provider_get_allocator, hl, provider_get_allocator_miss, hh]

/-- Witness for C2: a host failing with `FAIL` makes the trampoline
return -8 and leaves the empty cache empty. -/
theorem C2_host_error_propagates_witness :
    (provider_get_allocator hostErrW 0 initialProviderState specW).status = -8 ∧
    (provider_get_allocator hostErrW 0 initialProviderState specW).state.cache = [] := by
  have h := C2_host_error_propagates hostErrW 0 initialProviderState specW .FAIL
    (by decide) rfl
  exact ⟨h.1, h.2.2.1⟩

/-- Counterexample to C3: in the racing interleaving of two
`provider_get_allocator` misses for the same spec, starting from the
fresh provider state, the two calls hand two distinct handles (0 and
1) to the native side, both handles remain alive with reference count
2, the bridge releases nothing, and the cache maps the spec to the
later handle — so the losing handle is neither discarded nor released,
and two native allocator handles exist for one spec at once. -/
theorem C3_race_counterexample :
    ¬ ((racingRun hostOkW 0 0 initialProviderState specW).2.state.released ≠ [] ∨
       (racingRun hostOkW 0 0 initialProviderState specW).1.out
         = (racingRun hostOkW 0 0 initialProviderState specW).2.out) ∧
    (racingRun hostOkW 0 0 initialProviderState specW).1.out = some 0 ∧
    (racingRun hostOkW 0 0 initialProviderState specW).2.out = some 1 ∧
    (racingRun hostOkW 0 0 initialProviderState specW).2.state.refCount 0 = 2 ∧
    (racingRun hostOkW 0 0 initialProviderState specW).2.state.refCount 1 = 2 ∧
    lookupCache (racingRun hostOkW 0 0 initialProviderState specW).2.state.cache specW
      = some 1 := by
  decide

/-- C3 amended: when two concurrent `get_allocator` calls race on the
same uncached spec, each one creates and returns its own native
allocator handle; the later locked insert overwrites the earlier cache
entry, the earlier handle is not released by the bridge (its
cache-hold reference leaks), and a subsequent `provider_release`
releases only the handle still in the cache, leaving the overwritten
handle at reference count 2 forever. -/
theorem C3_race_overwrites_amended :
    ∀ (host : BufferSpec → Except SdkError Nat) (a : Nat) (spec : BufferSpec)
      (cr1 cr2 : Int),
    host spec = .ok a → SdkError.is_ok cr1 = true → SdkError.is_ok cr2 = true →
    (racingRun host cr1 cr2 initialProviderState spec).1.out = some 0 ∧
    (racingRun host cr1 cr2 initialProviderState spec).2.out = some 1 ∧
    lookupCache (racingRun host cr1 cr2 initialProviderState spec).2.state.cache spec
      = some 1 ∧
    (racingRun host cr1 cr2 initialProviderState spec).2.state.released = [] ∧
    (racingRun host cr1 cr2 initialProviderState spec).2.state.refCount 0 = 2 ∧
    (racingRun host cr1 cr2 initialProviderState spec).2.state.refCount 1 = 2 ∧
    (provider_release (racingRun host cr1 cr2 initialProviderState spec).2.state).refCount 0
      = 2 ∧
    (provider_release (racingRun host cr1 cr2 initialProviderState spec).2.state).refCount 1
      = 1 ∧
    (provider_release (racingRun host cr1 cr2 initialProviderState spec).2.state).released
      = [1] := by
  intro host a spec cr1 cr2 hh hc1 hc2
  refine ⟨?_, ?_, ?_, ?_, ?_, ?_, ?_, ?_, ?_⟩ <;>
    simp [racingRun, provider_get_allocator_miss, hh, hc1, hc2, initialProviderState,
      insertCache, addRef, bumpHostCalls, provider_release, releaseHandles, lookupCache,
      List.filter]

/-- Witness for C3 amended at the concrete race of `specW` under
`hostOkW`: handle 0 loses, stays at reference count 2 after provider
release, and only handle 1 is released. -/
theorem C3_race_overwrites_amended_witness :
    (racingRun hostOkW 0 0 initialProviderState specW).1.out = some 0 ∧
    (racingRun hostOkW 0 0 initialProviderState specW).2.out = some 1 ∧
    (provider_release (racingRun hostOkW 0 0 initialProviderState specW).2.state).refCount 0
      = 2 ∧
    (provider_release (racingRun hostOkW 0 0 initialProviderState specW).2.state).released
      = [1] := by
  have h := C3_race_overwrites_amended hostOkW 0 specW 0 0 rfl (by decide) (by decide)
  exact ⟨h.1, h.2.1, h.2.2.2.2.2.2.1, h.2.2.2.2.2.2.2.2⟩

/-- Outcome of one `allocator_allocate` trampoline call
(`src/allocator.rs` lines 154-169): the HRESULT returned to the native
side, the native buffer handle written through the out-pointer (`none`
when nothing is written), whether a `VideoBufferContext` box (owning
the freshly produced host buffer) was allocated, and whether that box
was reclaimed again before returning. -/
structure AllocateOutcome where
  status : Int
  allocated_buffer : Option Nat
  context_allocated : Bool
  context_reclaimed : Bool
deriving DecidableEq, Repr

/-- `create_c_video_buffer` (`src/allocator.rs` lines 123-146): box
the host buffer into a `VideoBufferContext`, hand it to
`cdecklink_custom_video_buffer_create` (whose status is
`createResult`); on success the native buffer object (handle 0) owns
the context, on failure the context box is dropped — which drops the
host buffer — and the error is returned.  The second component records
whether the context box was reclaimed on this path. -/
def create_c_video_buffer (createResult : Int) : Except SdkError Nat × Bool :=
  if SdkError.is_ok createResult then (.ok 0, false)
  else (.error (SdkError.fromCode createResult), true)

/-- `allocator_allocate` (`src/allocator.rs` lines 154-169): ask the
host allocator (outcome `hostResult`) for a buffer; on host failure
return its code; otherwise wrap the buffer via `create_c_video_buffer`
and either write the native buffer handle and return success, or
return the wrapping failure's code. -/
def allocator_allocate (hostResult : Except SdkError Unit) (createResult : Int) :
    AllocateOutcome :=
  match hostResult with
  | .error e => { status := e.code, allocated_buffer := none,
                  context_allocated := false, context_reclaimed := false }
  | .ok _ =>
    match create_c_video_buffer createResult with
    | (.ok c_buf, freed) =>
      { status := 0, allocated_buffer := some c_buf,
        context_allocated := true, context_reclaimed := freed }
    | (.error e, freed) =>
      { status := e.code, allocated_buffer := none,
        context_allocated := true, context_reclaimed := freed }

/-- C6: when the host allocator produces a buffer but wrapping it into
a native buffer object fails, the context box owning the host buffer
is allocated and then reclaimed (so the buffer is dropped and nothing
leaks), no native buffer handle is written to the out-pointer, and the
wrapping failure's status code is returned. -/
theorem C6_allocate_failure_no_leak :
    ∀ (createResult : Int),
    SdkError.is_ok createResult = false →
    allocator_allocate (.ok ()) createResult
      = { status := (SdkError.fromCode createResult).code
          allocated_buffer := none
          context_allocated := true
          context_reclaimed := true } := by
  intro createResult hc
  simp [allocator_allocate, create_c_video_buffer, hc]

/-- Witness for C6 at the concrete wrapping failure -2
(out-of-memory): the host buffer's context is reclaimed and -2 is
returned. -/
theorem C6_allocate_failure_no_leak_witness :
    allocator_allocate (.ok ()) (-2)
      = { status := -2, allocated_buffer := none,
          context_allocated := true, context_reclaimed := true } :=
  C6_allocate_failure_no_leak (-2) (by decide)

/-- Modelled from the spec: the display-mode identifier enum of the
`display_mode` module, which is not among the provided sources.  The
spec only requires an `Unknown` sentinel used when the native mode
pointer is null or the raw code is unrecognised; recognised
identifiers are abstracted by their raw SDK code. -/
inductive DecklinkDisplayModeId where
  | Unknown
  | Mode (raw : Nat)
deriving DecidableEq, Repr

/-- The argument tuple the format-changed handler receives: translated
event flags, display-mode identifier, and detected-signal flags. -/
structure FormatChangedArgs where
  events : Nat
  mode : DecklinkDisplayModeId
  flags : Nat
deriving DecidableEq, Repr

/-- `bitflags::from_bits_truncate`: keep only the bits declared in the
flag set (`known` is the union of the declared bits). -/
def from_bits_truncate (known : Nat) (bits : Nat) : Nat :=
  bits.land known

/-- `video_input_format_changed_callback`
(`src/device/input/video_callback.rs` lines 61-84), instrumented: the
first component is the HRESULT returned to the native side and the
second records the argument tuple passed to the handler (`none` when
no handler is installed and the dispatch does nothing).
`handler_installed` is whether the wrapper's slot holds a handler,
`new_display_mode` is `none` for a null native mode pointer and
`some raw` for a non-null pointer whose
`cdecklink_display_mode_get_display_mode` value is `raw`, and
`from_u32` is the derived conversion of the display-mode enum. -/
def video_input_format_changed_callback (eventsMask flagsMask : Nat)
    (from_u32 : Nat → Option DecklinkDisplayModeId)
    (handler_installed : Bool) (notification_events : Nat)
    (new_display_mode : Option Nat) (detected_signal_flags : Nat) :
    Int × Option FormatChangedArgs :=
  if handler_installed then
    let events := from_bits_truncate eventsMask notification_events
    let mode_id :=
      match new_display_mode with
      | none => DecklinkDisplayModeId.Unknown
      | some raw => (from_u32 raw).getD DecklinkDisplayModeId.Unknown
    let flags := from_bits_truncate flagsMask detected_signal_flags
    (0, some { events := events, mode := mode_id, flags := flags })
  else
    (0, none)

/-- C8: the format-changed dispatch always returns the success code to
the native side (the handler returns nothing, so nothing it does can
influence the status); the handler is invoked exactly when one is
installed; a null native display-mode pointer yields the `Unknown`
sentinel; and the event and detected-signal flags the handler receives
are the truncating translations of the native values. -/
theorem C8_format_changed_dispatch :
    ∀ (em fm : Nat) (fu : Nat → Option DecklinkDisplayModeId) (hi : Bool)
      (ne dsf raw : Nat) (ndm : Option Nat),
    (video_input_format_changed_callback em fm fu hi ne ndm dsf).1 = 0 ∧
    ((video_input_format_changed_callback em fm fu hi ne ndm dsf).2.isSome ↔ hi = true) ∧
    (video_input_format_changed_callback em fm fu true ne none dsf).2
      = some { events := from_bits_truncate em ne
               mode := DecklinkDisplayModeId.Unknown
               flags := from_bits_truncate fm dsf } ∧
    (video_input_format_changed_callback em fm fu true ne (some raw) dsf).2
      = some { events := from_bits_truncate em ne
               mode := (fu raw).getD DecklinkDisplayModeId.Unknown
               flags := from_bits_truncate fm dsf } := by
  intro em fm fu hi ne dsf raw ndm
  refine ⟨?_, ?_, rfl, rfl⟩ <;> cases hi <;>
    simp [video_input_format_changed_callback]

/-- `video_input_frame_arrived_callback`
(`src/device/input/video_callback.rs` lines 86-116), instrumented: the
first component is the HRESULT returned to the native side and the
second records the optional frame passed to the handler (`none` when
no handler is installed).  `video_frame` is `none` for a null native
frame pointer; `convert` models
`cdecklink_video_input_frame_to_video_frame`, returning `none` when
that call yields a null pointer. -/
def video_input_frame_arrived_callback (handler : Option (Option Nat → Bool))
    (video_frame : Option Nat) (convert : Nat → Option Nat) :
    Int × Option (Option Nat) :=
  match handler with
  | none => (0, none)
  | some h =>
    let frame : Option Nat :=
      match video_frame with
      | none => none
      | some nf => convert nf
    (if h frame then 0 else 1, some frame)

/-- C5: the frame-arrived dispatch translates a null native frame
pointer to a no-frame value passed to the handler; with a handler
installed the handler's boolean return alone decides the status
(`true` gives the success code 0, `false` the benign-false code 1);
and with no handler installed the dispatch returns the success code
without invoking anything. -/
theorem C5_frame_arrived_dispatch :
    ∀ (convert : Nat → Option Nat) (vf : Option Nat) (h : Option Nat → Bool) (nf : Nat),
    video_input_frame_arrived_callback none vf convert = (0, none) ∧
    video_input_frame_arrived_callback (some h) none convert
      = (if h none then 0 else 1, some none) ∧
    video_input_frame_arrived_callback (some h) (some nf) convert
      = (if h (convert nf) then 0 else 1, some (convert nf)) := by
  intro convert vf h nf
  exact ⟨rfl, rfl, rfl⟩

/-- `InputCallbackWrapper` of `src/device/input/video_callback.rs`:
the single handler slot behind the read/write lock, holding the
currently installed handler of type `H` (or none). -/
structure InputCallbackWrapper (H : Type) where
  handler : Option H
deriving DecidableEq, Repr

/-- The callback-registration portion of `DecklinkInputDevice`:
`callback_wrapper` is the raw wrapper pointer (`none` models a null
pointer, i.e. the unregistered state), and `native_registrations`
counts the `cdecklink_input_set_callback` calls made with the
trampoline function pointers. -/
structure DeviceInputCallbackState (H : Type) where
  callback_wrapper : Option (InputCallbackWrapper H)
  native_registrations : Nat
deriving DecidableEq, Repr

/-- `DecklinkInputDevice::set_callback` (`src/device/input/mod.rs`
lines 204-218) together with `register_input_callback`
(`src/device/input/video_callback.rs` lines 17-40): when the wrapper
pointer is null, allocate a wrapper and register it with the native
side (`nativeResult` is the HRESULT of that call; on failure the
wrapper is freed again and the error returned); then store the given
handler in the wrapper's slot under the write lock. -/
def set_callback {H : Type} (st : DeviceInputCallbackState H) (handler : Option H)
    (nativeResult : Int) : Except SdkError Unit × DeviceInputCallbackState H :=
  match st.callback_wrapper with
  | some _ =>
    (.ok (), { st with callback_wrapper := some { handler := handler } })
  | none =>
    let st1 := { st with native_registrations := st.native_registrations + 1 }
    if SdkError.is_ok nativeResult then
      (.ok (), { st1 with callback_wrapper := some { handler := handler } })
    else
      (.error (SdkError.fromCode nativeResult), st1)

/-- A sequence of `set_callback` calls, each with its handler argument
and the HRESULT its (potential) native registration would return. -/
def run_set_callbacks {H : Type} (st : DeviceInputCallbackState H) :
    List (Option H × Int) → DeviceInputCallbackState H
  | [] => st
  | op :: rest => run_set_callbacks (set_callback st op.1 op.2).2 rest

/-- Once the wrapper is registered, any further sequence of
`set_callback` calls performs no native registration and keeps the
wrapper registered. -/
theorem run_set_callbacks_registered {H : Type} :
    ∀ (ops : List (Option H × Int)) (st : DeviceInputCallbackState H),
    st.callback_wrapper.isSome = true →
    (run_set_callbacks st ops).native_registrations = st.native_registrations ∧
    (run_set_callbacks st ops).callback_wrapper.isSome = true := by
  intro ops
  induction ops with
  | nil => exact fun st h => ⟨rfl, h⟩
  | cons op rest ih =>
    intro st hsome
    cases hw : st.callback_wrapper with
    | none => rw [hw] at hsome; exact absurd hsome (by simp)
    | some w =>
      have h2 : (set_callback st op.1 op.2).2
          = { st with callback_wrapper := some { handler := op.1 } } := by
        simp [set_callback, hw]
      have h3 := ih (set_callback st op.1 op.2).2 (by rw [h2]; rfl)
      refine ⟨?_, h3.2⟩
      rw [run_set_callbacks, h3.1, h2]

/-- C7: per device-input object the native trampolines are installed
at most once.  A `set_callback` on an unregistered object with a
successful native registration installs the wrapper and performs
exactly one native registration; once the wrapper is registered, every
further `set_callback` succeeds, only replaces the slot's contents
with the new handler, performs no native registration, and any
sequence of further calls leaves the registration count and the
registered state unchanged. -/
theorem C7_registration_idempotent :
    ∀ (st : DeviceInputCallbackState Nat) (ops : List (Option Nat × Int))
      (h : Option Nat) (r : Int),
    (st.callback_wrapper.isSome = true →
      (run_set_callbacks st ops).native_registrations = st.native_registrations ∧
      (run_set_callbacks st ops).callback_wrapper.isSome = true) ∧
    (∀ w, st.callback_wrapper = some w →
      (set_callback st h r).1 = .ok () ∧
      (set_callback st h r).2.callback_wrapper = some { handler := h } ∧
      (set_callback st h r).2.native_registrations = st.native_registrations) ∧
    (st.callback_wrapper = none → SdkError.is_ok r = true →
      (set_callback st h r).1 = .ok () ∧
      (set_callback st h r).2.callback_wrapper = some { handler := h } ∧
      (set_callback st h r).2.native_registrations = st.native_registrations + 1) := by
  intro st ops h r
  refine ⟨run_set_callbacks_registered ops st, ?_, ?_⟩
  · intro w hw
    refine ⟨?_, ?_, ?_⟩ <;> simp [set_callback, hw]
  · intro hn hr
    refine ⟨?_, ?_, ?_⟩ <;> simp [set_callback, hn, hr]

/-- A registered callback state used by the C7 witness. -/
def stRegW : DeviceInputCallbackState Nat :=
  { callback_wrapper := some { handler := none }, native_registrations := 1 }

/-- An unregistered callback state used by the C7 witness. -/
def stUnregW : DeviceInputCallbackState Nat :=
  { callback_wrapper := none, native_registrations := 0 }

/-- Witness for C7: on the registered state, two further calls leave
the registration count at 1 and a single call replaces the handler
with handler 5; on the unregistered state, a successful first call
registers once. -/
theorem C7_registration_idempotent_witness :
    (run_set_callbacks stRegW [(some 5, 0), (none, 0)]).native_registrations = 1 ∧
    (set_callback stRegW (some 5) 0).2.callback_wrapper = some { handler := some 5 } ∧
    (set_callback stUnregW (some 5) 0).2.native_registrations = 1 := by
  have h1 := (C7_registration_idempotent stRegW [(some 5, 0), (none, 0)] (some 5) 0).1 rfl
  have h2 := (C7_registration_idempotent stRegW [] (some 5) 0).2.1 { handler := none } rfl
  have h3 := (C7_registration_idempotent stUnregW [] (some 5) 0).2.2 rfl (by decide)
  exact ⟨h1.1, h2.2.1, h3.2.2⟩

/-- The externally visible actions of `DecklinkInputDevice::drop`, in
the order the drop glue performs them. -/
inductive TeardownEvent where
  | stop_streams
  | disable_video_input
  | clear_callback
  | free_wrapper
  | release_provider
deriving DecidableEq, Repr

/-- `DecklinkInputDevice::drop` (`src/device/input/mod.rs` lines
263-292) as the trace of actions it emits: when video is active, stop
the streams and disable video input; when a callback wrapper exists,
first clear the native registration (null context and null function
pointers) and only then reclaim the wrapper's box; when an allocator
provider is set, release it. -/
def decklink_input_device_drop (video_active has_wrapper has_provider : Bool) :
    List TeardownEvent :=
  (if video_active then [.stop_streams, .disable_video_input] else []) ++
  (if has_wrapper then [.clear_callback, .free_wrapper] else []) ++
  (if has_provider then [.release_provider] else [])

/-- Every `free_wrapper` in the trace is preceded by an earlier
`clear_callback`: `seen` records whether a `clear_callback` has
already occurred. -/
def free_after_clear (seen : Bool) : List TeardownEvent → Bool
  | [] => true
  | .clear_callback :: rest => free_after_clear true rest
  | .free_wrapper :: rest => seen && free_after_clear seen rest
  | _ :: rest => free_after_clear seen rest

/-- C9: on every teardown path of the device-input object, the native
registration is cleared strictly before the wrapper's backing storage
is reclaimed — a `free_wrapper` only ever occurs after a
`clear_callback`, and the trace frees the wrapper exactly when it
clears the registration, so the reverse order never occurs. -/
theorem C9_teardown_order :
    ∀ (video_active has_wrapper has_provider : Bool),
    free_after_clear false
      (decklink_input_device_drop video_active has_wrapper has_provider) = true ∧
    (TeardownEvent.free_wrapper
        ∈ decklink_input_device_drop video_active has_wrapper has_provider ↔
      TeardownEvent.clear_callback
        ∈ decklink_input_device_drop video_active has_wrapper has_provider) := by
  decide

/-- The video-enable portion of `DecklinkInputDevice`:
`atomic_active` is the shared `ptr.video_active` atomic flag,
`video_active` the plain field of the same name, `allocator_provider`
the stored native provider handle, `native_enable_calls` counts the
native enable-video-input calls, and `released_providers` records
every native provider handle the device released. -/
structure DeviceVideoState where
  atomic_active : Bool
  video_active : Bool
  allocator_provider : Option Nat
  native_enable_calls : Nat
  released_providers : List Nat
deriving DecidableEq, Repr

/-- `DecklinkInputDevice::enable_video_input`
(`src/device/input/mod.rs` lines 90-113): swap the atomic flag to
true; if it was already true return `ACCESSDENIED` without any native
call; otherwise call the native enable (`nativeResult`), and on
failure restore the atomic flag to false and return the error;
on success set the `video_active` field. -/
def enable_video_input (st : DeviceVideoState) (nativeResult : Int) :
    Except SdkError Unit × DeviceVideoState :=
  if st.atomic_active then
    (.error .ACCESSDENIED, st)
  else
    let st1 := { st with atomic_active := true
                         native_enable_calls := st.native_enable_calls + 1 }
    if SdkError.is_ok nativeResult then
      (.ok (), { st1 with video_active := true })
    else
      (.error (SdkError.fromCode nativeResult), { st1 with atomic_active := false })

/-- `DecklinkInputDevice::enable_video_input_with_allocator`
(`src/device/input/mod.rs` lines 142-177): swap the atomic flag; if
already active return `ACCESSDENIED` with no native call and no
provider creation; otherwise create the native allocator provider
(outcome `createProvider`; on its failure the error propagates via the
question-mark operator); then call the native enable with the fresh
provider handle, and on failure release that handle, restore the
atomic flag and return the error; on success store the handle and set
the `video_active` field. -/
def enable_video_input_with_allocator (st : DeviceVideoState)
    (createProvider : Except SdkError Nat) (nativeResult : Int) :
    Except SdkError Unit × DeviceVideoState :=
  if st.atomic_active then
    (.error .ACCESSDENIED, st)
  else
    let st1 := { st with atomic_active := true }
    match createProvider with
    | .error e => (.error e, st1)
    | .ok c_provider =>
      let st2 := { st1 with native_enable_calls := st1.native_enable_calls + 1 }
      if SdkError.is_ok nativeResult then
        (.ok (), { st2 with allocator_provider := some c_provider, video_active := true })
      else
        (.error (SdkError.fromCode nativeResult),
         { st2 with released_providers := c_provider :: st2.released_providers
                    atomic_active := false })

/-- C10: enabling video input is atomic with respect to the
video-active flag.  When the flag is already set, both enable
functions return `ACCESSDENIED`, make no native enable call, and leave
the whole state unchanged.  When the flag is clear and the native
enable call fails, `enable_video_input` returns that error with the
atomic flag restored to inactive and the `video_active` field and
provider slot untouched; and `enable_video_input_with_allocator`
additionally releases the freshly created provider handle before
returning the error, leaving the stored provider slot as it was. -/
theorem C10_enable_video_atomic :
    ∀ (st : DeviceVideoState) (r : Int) (p : Nat) (cp : Except SdkError Nat),
    (st.atomic_active = true →
      enable_video_input st r = (.error .ACCESSDENIED, st) ∧
      enable_video_input_with_allocator st cp r = (.error .ACCESSDENIED, st)) ∧
    (st.atomic_active = false → SdkError.is_ok r = false →
      (enable_video_input st r).1 = .error (SdkError.fromCode r) ∧
      (enable_video_input st r).2.atomic_active = false ∧
      (enable_video_input st r).2.video_active = st.video_active ∧
      (enable_video_input st r).2.allocator_provider = st.allocator_provider) ∧
    (st.atomic_active = false → SdkError.is_ok r = false →
      (enable_video_input_with_allocator st (.ok p) r).1
        = .error (SdkError.fromCode r) ∧
      (enable_video_input_with_allocator st (.ok p) r).2.atomic_active = false ∧
      (enable_video_input_with_allocator st (.ok p) r).2.video_active
        = st.video_active ∧
      (enable_video_input_with_allocator st (.ok p) r).2.allocator_provider
        = st.allocator_provider ∧
      p ∈ (enable_video_input_with_allocator st (.ok p) r).2.released_providers) := by
  intro st r p cp
  refine ⟨?_, ?_, ?_⟩
  · intro ha
    constructor <;> simp [enable_video_input, enable_video_input_with_allocator, ha]
  · intro ha hr
    refine ⟨?_, ?_, ?_, ?_⟩ <;> simp [enable_video_input, ha, hr]
  · intro ha hr
    refine ⟨?_, ?_, ?_, ?_, ?_⟩ <;>
      simp [enable_video_input_with_allocator, ha, hr]

/-- A fresh inactive device-video state for the C10 witness. -/
def stVideoW : DeviceVideoState :=
  { atomic_active := false, video_active := false, allocator_provider := none,
    native_enable_calls := 0, released_providers := [] }

/-- Witness for C10: on the already-active state both enables return
access-denied unchanged; on the inactive state a native enable failing
with -8 leaves the atomic flag clear, and the allocator variant
releases the fresh provider handle 3. -/
theorem C10_enable_video_atomic_witness :
    enable_video_input { stVideoW with atomic_active := true } 0
      = (.error .ACCESSDENIED, { stVideoW with atomic_active := true }) ∧
    (enable_video_input stVideoW (-8)).2.atomic_active = false ∧
    (enable_video_input_with_allocator stVideoW (.ok 3) (-8)).1
      = .error .FAIL ∧
    3 ∈ (enable_video_input_with_allocator stVideoW (.ok 3) (-8)).2.released_providers := by
  have h1 := (C10_enable_video_atomic { stVideoW with atomic_active := true } 0 3 (.ok 3)).1 rfl
  have h2 := (C10_enable_video_atomic stVideoW (-8) 3 (.ok 3)).2.1 rfl (by decide)
  have h3 := (C10_enable_video_atomic stVideoW (-8) 3 (.ok 3)).2.2 rfl (by decide)
  exact ⟨h1.1, h2.2.1, h3.1, h3.2.2.2.2⟩

end Decklink
